import Mathlib

/-!
Verification development for the star-history aggregation engine of the
`visualize-git` repository (handler in `src/unnamed/part_000`, endpoint
`GetStarAnalytics`).

Modelling conventions (shallow embedding of the TypeScript source):
* Calendar days are natural numbers (day index, e.g. days since an epoch;
  in the concrete examples day 0 stands for 2024-01-01).
* Event timestamps (`starred_at`) are natural numbers counting whole hours,
  so the calendar day of an event `e` is `e / 24` and its truncated hour
  key is `e` itself.  `today` is a day number; the handler's `new Date()`
  is modelled at day granularity (midnight), matching the spec's
  `today : calendar day` input.
* JavaScript numbers are modelled as exact rationals (`ℚ`); the final
  display rounding `parseFloat(x.toFixed(n))` of the response assembly is
  omitted, the fields carry the exact values the handler computes.
* `Math.round` is `jsRound : ℚ → ℤ`, `⌊q + 1/2⌋` (round half toward +∞),
  which agrees with JavaScript on the non-negative values that occur here.
* The fetch of one stargazer page is abstracted by an oracle
  `Nat → FetchOutcome` (page number ↦ classified outcome), and the
  remaining-quota endpoint by an oracle `Nat → Nat` (batch index ↦ the
  value of `rateData.resources.core.remaining` read at that check).
-/

/-- Outcome of one stargazer page fetch, as classified by the handler:
HTTP 403 (`rateLimited`) and any other non-ok response (`httpError`) both
contribute an empty event array; an ok response contributes its parsed
events (timestamps in hours). -/
inductive FetchOutcome where
  | ok (events : List Nat)
  | rateLimited
  | httpError
deriving DecidableEq, Repr

/-- The event array the handler's page callback returns for an outcome:
`[]` for `response.status === 403` and for `!response.ok`, the parsed
body otherwise (lines 151-163 of the handler). -/
def outcomeEvents : FetchOutcome → List Nat
  | .ok events => events
  | .rateLimited => []
  | .httpError => []

/-- `starsPerPage = 100` (line 120). -/
def starsPerPage : Nat := 100

/-- `Math.ceil(totalStars / starsPerPage)` (line 121). -/
def totalPagesOf (totalItems : Nat) : Nat := (totalItems + (starsPerPage - 1)) / starsPerPage

/-- The page plan of lines 126-145: full mode or a small collection gets
pages `1..min(totalPages, maxPages)`; otherwise pages `1..30` together
with the 70 pages `totalPages-69..totalPages` (the loop pushes only those
`> 30`, kept faithfully as a filter). -/
def pagesToFetch (totalItems : Nat) (fetchFull : Bool) : List Nat :=
  let totalPages := totalPagesOf totalItems
  let maxPages := if fetchFull then totalPages else min 100 totalPages
  if fetchFull || totalPages ≤ 100 then
    (List.range (min totalPages maxPages)).map (fun i => i + 1)
  else
    ((List.range 30).map (fun i => i + 1)) ++
      (((List.range 70).map (fun j => totalPages - 69 + j)).filter (fun i => 30 < i))

/-- `BATCH_SIZE = 10` (line 131). -/
def BATCH_SIZE : Nat := 10

/-- Partition of the planned page list into consecutive batches of 10
(`pagesToFetch.slice(i, i + BATCH_SIZE)` as `i` steps by 10, line 147-148).
The fuel argument bounds the number of loop iterations; the wrapper
passes the list length, which suffices because every iteration consumes
at least one page. -/
def chunkedGo : Nat → List Nat → List (List Nat)
  | 0, _ => []
  | _, [] => []
  | fuel + 1, p :: ps => ((p :: ps).take BATCH_SIZE) :: chunkedGo fuel ((p :: ps).drop BATCH_SIZE)

def chunked (ps : List Nat) : List (List Nat) := chunkedGo ps.length ps

/-- Trace of one run of the batched fetch loop: the accumulated event
list and, for each batch that was actually run, whether the rate-limit
endpoint was queried after it. -/
structure FetchLog where
  events : List Nat
  checked : List Bool
deriving DecidableEq, Repr

/-- The batched fetch loop of lines 147-180.  For each batch: fetch all
pages, append all result arrays to the accumulator; if some result array
is empty, query the remaining quota and stop the loop (`break`) when it
is `< 10`.  `quota idx` is the remaining-quota reading taken after batch
number `idx` (when it is taken at all). -/
def runBatches (fetch : Nat → FetchOutcome) (quota : Nat → Nat) :
    List (List Nat) → Nat → FetchLog
  | [], _ => ⟨[], []⟩
  | b :: rest, idx =>
    let results := b.map fetch
    let evs := (results.map outcomeEvents).flatten
    if results.any (fun r => (outcomeEvents r).isEmpty) then
      if quota idx < 10 then
        ⟨evs, [true]⟩
      else
        let log := runBatches fetch quota rest (idx + 1)
        ⟨evs ++ log.events, true :: log.checked⟩
    else
      let log := runBatches fetch quota rest (idx + 1)
      ⟨evs ++ log.events, false :: log.checked⟩

/-- `CACHE_TTL = 7 * 24 * 60 * 60 * 1000` ms (line 71). -/
def CACHE_TTL : Nat := 7 * 24 * 60 * 60 * 1000

/-- One entry of the in-memory `starCache` (line 70). -/
structure CacheEntry where
  timestamp : Nat
  data : List Nat
deriving DecidableEq, Repr

/-- Cache read of lines 111-116: use the entry only when present and
younger than the TTL. -/
def cacheGet (cache : String → Option CacheEntry) (key : String) (now : Nat) :
    Option (List Nat) :=
  match cache key with
  | some e => if now - e.timestamp < CACHE_TTL then some e.data else none
  | none => none

/-- Cache write of lines 182-185: store the fetched events only when at
least one was gathered. -/
def cacheStore (cache : String → Option CacheEntry) (key : String) (now : Nat)
    (events : List Nat) : String → Option CacheEntry :=
  if 0 < events.length then
    fun k => if k = key then some ⟨now, events⟩ else cache k
  else cache

/-- One day of the produced daily history (`dailyStarSchema`). -/
structure DailyStar where
  date : Nat
  daily : Nat
  cumulative : Nat
deriving DecidableEq, Repr

/-- One hour of the produced hourly activity (`hourlyStarSchema`).  Hour
keys are integers because `sevenDaysAgo` may fall before the epoch of the
model. -/
structure HourlyStar where
  hour : Int
  stars : Nat
deriving DecidableEq, Repr

/-- The `trend` enum. -/
inductive Trend where
  | up
  | down
  | stable
deriving DecidableEq, Repr

/-- The `peakDay` object of the trends block. -/
structure PeakDay where
  date : Nat
  stars : Nat
deriving DecidableEq, Repr

/-- The `trends` block of the response (`trendsSchema`). -/
structure Trends where
  avg7d : ℚ
  avg30d : ℚ
  peakDay : PeakDay
  velocity : ℚ
  trend : Trend
  growthRate : ℚ
deriving DecidableEq, Repr

/-- The 200-response body (`responseSchema`), minus the echoed
`owner`/`repo` strings. -/
structure AnalyticsResponse where
  totalStars : Nat
  createdAt : Nat
  ageInDays : Int
  avgStarsPerDay : ℚ
  dailyHistory : List DailyStar
  hourlyActivity : List HourlyStar
  trends : Trends
  recentActivity : List DailyStar
  dataCompleteness : ℚ
deriving DecidableEq, Repr

/-- `Math.round` on the non-negative rationals that occur here: round
half toward positive infinity. -/
def jsRound (q : ℚ) : ℤ := ⌊q + 1 / 2⌋

/-- `starsByDate.get(dateStr) || 0` (lines 196-199, 217): the number of
events whose calendar day is `d`. -/
def rawDaily (events : List Nat) (d : Nat) : Nat :=
  events.countP (fun e => e / 24 == d)

/-- The daily-history loop of lines 210-225: walk the given day list with
a running cumulative accumulator; returns the built list together with
the final value of the `cumulative` variable. -/
def dailyLoop (events : List Nat) : List Nat → Nat → List DailyStar × Nat
  | [], acc => ([], acc)
  | d :: ds, acc =>
    let daily := rawDaily events d
    let rest := dailyLoop events ds (acc + daily)
    (⟨d, daily, acc + daily⟩ :: rest.1, rest.2)

/-- The days visited by the loop `for (d = createdDate; d <= today; d++)`:
`createdAt, createdAt+1, ..., today`, empty when `createdAt > today`. -/
def historyDays (createdAt today : Nat) : List Nat :=
  if createdAt ≤ today then (List.range (today - createdAt + 1)).map (fun j => createdAt + j)
  else []

/-- The value of the `cumulative` variable after the daily-history loop:
the number of observed events falling between `createdAt` and `today`. -/
def observedTotal (events : List Nat) (createdAt today : Nat) : Nat :=
  (dailyLoop events (historyDays createdAt today) 0).2

/-- The completeness correction of lines 230-236: when
`0 < cumulative < totalStars`, replace every entry's `cumulative` by
`Math.round(cumulative * (totalStars / observed))`. -/
def scaleHistory (hist : List DailyStar) (observed totalStars : Nat) : List DailyStar :=
  if observed < totalStars && 0 < observed then
    hist.map (fun x =>
      ⟨x.date, x.daily, (jsRound ((x.cumulative : ℚ) * ((totalStars : ℚ) / (observed : ℚ)))).toNat⟩)
  else hist

/-- `new Date(today); setDate(-7)` as an hour count (line 193-194). -/
def sevenDaysAgoH (today : Nat) : Int := (today : Int) * 24 - 7 * 24

/-- `starsByHour.get(hourKey) || 0` (lines 201-206, 244): events bucketed
by truncated hour, counting only events at or after `sevenDaysAgo`. -/
def hourlyStars (events : List Nat) (today : Nat) (h : Int) : Nat :=
  events.countP (fun (e : Nat) => decide (sevenDaysAgoH today ≤ (e : Int)) && ((e : Int) == h))

/-- The hourly loop of lines 239-246: one entry per hour from
`sevenDaysAgo` to `today` inclusive (169 hours). -/
def hourlyActivityOf (events : List Nat) (today : Nat) : List HourlyStar :=
  (List.range (7 * 24 + 1)).map
    (fun j => ⟨sevenDaysAgoH today + j, hourlyStars events today (sevenDaysAgoH today + j)⟩)

/-- `list.slice(-n)` for the window extractions of lines 249-250. -/
def lastN (l : List DailyStar) (n : Nat) : List DailyStar := l.drop (l.length - n)

/-- `dailyHistory.slice(-60, -30)` (line 251), with JavaScript's clamping
of negative indices. -/
def sliceWindow (l : List DailyStar) : List DailyStar :=
  (l.drop (l.length - 60)).take ((l.length - 30) - (l.length - 60))

/-- Sum of the `daily` fields of a window (lines 253-255). -/
def dailySum (l : List DailyStar) : Nat := (l.map (fun x => x.daily)).sum

/-- The peak-day reduce of lines 261-264: keep the strictly larger day,
so the earliest day wins ties; seeded with `{createdAt, 0, 0}`. -/
def peakDayOf (hist : List DailyStar) (createdAt : Nat) : DailyStar :=
  hist.foldl (fun m x => if m.daily < x.daily then x else m) ⟨createdAt, 0, 0⟩

/-- The trend detection of lines 267-274. -/
def trendOf (sum30 sumPrev30 : Nat) : Trend :=
  if 0 < sumPrev30 then
    let change : ℚ := ((sum30 : ℚ) - (sumPrev30 : ℚ)) / (sumPrev30 : ℚ)
    if 1 / 10 < change then .up
    else if change < -(1 / 10) then .down
    else .stable
  else if 10 < sum30 then .up
  else .stable

/-- The growth-rate computation of lines 276-280. -/
def growthRateOf (last30 : List DailyStar) (totalStars : Nat) : ℚ :=
  let startStars : Nat :=
    match last30.head? with
    | some x => x.cumulative
    | none => totalStars
  if 0 < startStars then (((totalStars : ℚ) - (startStars : ℚ)) / (startStars : ℚ)) * 100
  else 0

/-- The pure analytics computation of the handler (lines 104-108 and
191-316): age and average, daily bucketing and dense history, the
completeness correction, the dense hourly series, and the derived trend
block, assembled into the response body. -/
def buildAnalytics (events : List Nat) (totalStars createdAt today : Nat) :
    AnalyticsResponse :=
  let ageInDays : Int := (today : Int) - (createdAt : Int)
  let avgStarsPerDay : ℚ :=
    if 0 < ageInDays then (totalStars : ℚ) / (ageInDays : ℚ) else (totalStars : ℚ)
  let raw := dailyLoop events (historyDays createdAt today) 0
  let observed := raw.2
  let dataCompleteness : ℚ :=
    if 0 < totalStars then ((observed : ℚ) / (totalStars : ℚ)) * 100 else 100
  let dailyHistory := scaleHistory raw.1 observed totalStars
  let last7 := lastN dailyHistory 7
  let last30 := lastN dailyHistory 30
  let prev30 := sliceWindow dailyHistory
  let sum7 := dailySum last7
  let sum30 := dailySum last30
  let sumPrev30 := dailySum prev30
  let avg7d : ℚ := if 0 < last7.length then (sum7 : ℚ) / (last7.length : ℚ) else 0
  let avg30d : ℚ := if 0 < last30.length then (sum30 : ℚ) / (last30.length : ℚ) else 0
  let peak := peakDayOf dailyHistory createdAt
  { totalStars := totalStars
    createdAt := createdAt
    ageInDays := ageInDays
    avgStarsPerDay := avgStarsPerDay
    dailyHistory := dailyHistory
    hourlyActivity := hourlyActivityOf events today
    trends :=
      { avg7d := avg7d
        avg30d := avg30d
        peakDay := ⟨peak.date, peak.daily⟩
        velocity := avg7d
        trend := trendOf sum30 sumPrev30
        growthRate := growthRateOf last30 totalStars }
    recentActivity := last30
    dataCompleteness := dataCompleteness }

/-- One full run of the handler after the repo-summary fetch is
classified: `none` summary models a failed `repoResponse` (the handler
throws, line 96-98); otherwise consult the cache, on a miss run the
batched fetch over the planned pages, store the result when non-empty,
and build the analytics from the gathered events.  Returns the response
together with the updated cache. -/
def runRequest (fetch : Nat → FetchOutcome) (quota : Nat → Nat)
    (summary : Option (Nat × Nat)) (fetchFull : Bool)
    (cache : String → Option CacheEntry) (key : String) (now today : Nat) :
    Except String (AnalyticsResponse × (String → Option CacheEntry)) :=
  match summary with
  | none => .error "Failed to fetch repo"
  | some (totalStars, createdAt) =>
    match cacheGet cache key now with
    | some cachedEvents => .ok (buildAnalytics cachedEvents totalStars createdAt today, cache)
    | none =>
      let log := runBatches fetch quota (chunked (pagesToFetch totalStars fetchFull)) 0
      .ok (buildAnalytics log.events totalStars createdAt today,
           cacheStore cache key now log.events)

/-! ### Helper lemmas about the daily-history loop and the correction -/

theorem dailyLoop_cons (e : List Nat) (d : Nat) (ds : List Nat) (acc : Nat) :
    dailyLoop e (d :: ds) acc =
      (⟨d, rawDaily e d, acc + rawDaily e d⟩ :: (dailyLoop e ds (acc + rawDaily e d)).1,
       (dailyLoop e ds (acc + rawDaily e d)).2) := rfl

theorem dailyLoop_map_date (e : List Nat) :
    ∀ ds acc, ((dailyLoop e ds acc).1.map (fun x => x.date)) = ds := by
  intro ds
  induction ds with
  | nil => intro acc; rfl
  | cons d ds ih => intro acc; rw [dailyLoop_cons]; simp [ih]

theorem dailyLoop_mem_daily (e : List Nat) :
    ∀ ds acc x, x ∈ (dailyLoop e ds acc).1 → x.daily = rawDaily e x.date := by
  intro ds
  induction ds with
  | nil => intro acc x hx; simp [dailyLoop] at hx
  | cons d ds ih =>
    intro acc x hx
    rw [dailyLoop_cons] at hx
    rcases List.mem_cons.mp hx with h | h
    · subst h; rfl
    · exact ih _ x h

theorem dailyLoop_chain (e : List Nat) :
    ∀ ds acc, List.Chain' (fun a b => a.cumulative ≤ b.cumulative) (dailyLoop e ds acc).1 ∧
      ∀ x ∈ (dailyLoop e ds acc).1.head?, acc ≤ x.cumulative := by
  intro ds
  induction ds with
  | nil => intro acc; exact ⟨List.chain'_nil, by simp [dailyLoop]⟩
  | cons d ds ih =>
    intro acc
    have h := ih (acc + rawDaily e d)
    rw [dailyLoop_cons]
    refine ⟨List.chain'_cons'.mpr ⟨fun z hz => ?_, h.1⟩, fun x hx => ?_⟩
    · exact le_trans (Nat.le_refl _) (h.2 z hz)
    · have : x = ⟨d, rawDaily e d, acc + rawDaily e d⟩ := by
        simpa [eq_comm] using hx
      subst this
      exact Nat.le_add_right acc _

theorem dailyLoop_ne_nil (e : List Nat) (d : Nat) (ds : List Nat) (acc : Nat) :
    (dailyLoop e (d :: ds) acc).1 ≠ [] := by
  rw [dailyLoop_cons]
  exact List.cons_ne_nil _ _

theorem dailyLoop_getLast (e : List Nat) :
    ∀ ds acc, ds ≠ [] →
      ((dailyLoop e ds acc).1.getLast?.map (fun x => x.cumulative)) =
        some (dailyLoop e ds acc).2 := by
  intro ds
  induction ds with
  | nil => intro acc h; exact absurd rfl h
  | cons d ds ih =>
    intro acc _
    cases ds with
    | nil => rfl
    | cons d2 ds2 =>
      have h2 := ih (acc + rawDaily e d) (List.cons_ne_nil _ _)
      rw [dailyLoop_cons]
      rw [dailyLoop_cons e d2 ds2 (acc + rawDaily e d)] at h2 ⊢
      simpa [List.getLast?_cons_cons] using h2

theorem scaleHistory_map_date (h : List DailyStar) (o t : Nat) :
    (scaleHistory h o t).map (fun x => x.date) = h.map (fun x => x.date) := by
  unfold scaleHistory
  split
  · rw [List.map_map]; rfl
  · rfl

theorem scaleHistory_mem (h : List DailyStar) (o t : Nat) (x : DailyStar)
    (hx : x ∈ scaleHistory h o t) : ∃ y ∈ h, x.date = y.date ∧ x.daily = y.daily := by
  unfold scaleHistory at hx
  split at hx
  · obtain ⟨y, hy, rfl⟩ := List.mem_map.mp hx
    exact ⟨y, hy, rfl, rfl⟩
  · exact ⟨x, hx, rfl, rfl⟩

theorem jsRound_le_jsRound {a b : ℚ} (h : a ≤ b) : jsRound a ≤ jsRound b :=
  Int.floor_le_floor (by linarith)

theorem jsRound_natCast (n : Nat) : jsRound (n : ℚ) = n := by
  unfold jsRound
  rw [Int.floor_nat_add]
  norm_num

theorem historyDays_eq (createdAt today : Nat) (h : createdAt ≤ today) :
    historyDays createdAt today =
      (List.range (today - createdAt + 1)).map (fun j => createdAt + j) := by
  simp [historyDays, h]

/-! ### Shape of the sampling plan -/

theorem pagesToFetch_full (totalItems : Nat) :
    pagesToFetch totalItems true =
      (List.range (totalPagesOf totalItems)).map (fun i => i + 1) := by
  simp [pagesToFetch]

theorem pagesToFetch_small (totalItems : Nat) (h : totalPagesOf totalItems ≤ 100) :
    pagesToFetch totalItems false =
      (List.range (totalPagesOf totalItems)).map (fun i => i + 1) := by
  have hmin : min 100 (totalPagesOf totalItems) = totalPagesOf totalItems := min_eq_right h
  simp [pagesToFetch, h, hmin]

theorem pagesToFetch_sampled (totalItems : Nat) (h : 100 < totalPagesOf totalItems) :
    pagesToFetch totalItems false =
      ((List.range 30).map (fun i => i + 1)) ++
        ((List.range 70).map (fun j => totalPagesOf totalItems - 69 + j)) := by
  have hc : ¬ totalPagesOf totalItems ≤ 100 := Nat.not_le.mpr h
  simp only [pagesToFetch, Bool.false_or, decide_eq_true_eq, if_neg hc]
  congr 1
  apply List.filter_eq_self.mpr
  intro a ha
  obtain ⟨j, hj, rfl⟩ := List.mem_map.mp ha
  have hj' := List.mem_range.mp hj
  simp only [decide_eq_true_eq]
  omega

/-- **C3.** For every `totalItems` and `fullScan` flag: in full mode or for
at most 100 total pages the plan is exactly pages `1..totalPages`;
otherwise it is exactly `1..30` followed by `totalPages-69..totalPages`;
in every case the plan is strictly increasing, duplicate-free, and every
page lies in `[1, totalPages]`; and for `totalPages = 250` (e.g.
`totalItems = 25000`) with `fullScan = false` the plan is the 100 distinct
pages `1..30` and `181..250`. -/
theorem claim3_sampling_plan (totalItems : Nat) (fetchFull : Bool) :
    ((fetchFull = true ∨ totalPagesOf totalItems ≤ 100) →
        pagesToFetch totalItems fetchFull =
          (List.range (totalPagesOf totalItems)).map (fun i => i + 1)) ∧
      ((fetchFull = false ∧ 100 < totalPagesOf totalItems) →
        pagesToFetch totalItems fetchFull =
          ((List.range 30).map (fun i => i + 1)) ++
            ((List.range 70).map (fun j => totalPagesOf totalItems - 69 + j))) ∧
      List.Pairwise (fun a b => a < b) (pagesToFetch totalItems fetchFull) ∧
      (pagesToFetch totalItems fetchFull).Nodup ∧
      (∀ p ∈ pagesToFetch totalItems fetchFull, 1 ≤ p ∧ p ≤ totalPagesOf totalItems) ∧
      (pagesToFetch 25000 false).length = 100 ∧
      pagesToFetch 25000 false =
        ((List.range 30).map (fun i => i + 1)) ++
          ((List.range 70).map (fun j => 181 + j)) := by
  have hpw : List.Pairwise (fun a b => a < b) (pagesToFetch totalItems fetchFull) := by
    cases fetchFull with
    | true =>
      rw [pagesToFetch_full]
      exact List.Pairwise.map _ (fun a b hab => by omega) (List.pairwise_lt_range _)
    | false =>
      rcases le_or_lt (totalPagesOf totalItems) 100 with h100 | h100
      · rw [pagesToFetch_small _ h100]
        exact List.Pairwise.map _ (fun a b hab => by omega) (List.pairwise_lt_range _)
      · rw [pagesToFetch_sampled _ h100]
        rw [List.pairwise_append]
        refine ⟨List.Pairwise.map _ (fun a b hab => by omega) (List.pairwise_lt_range _),
          List.Pairwise.map _ (fun a b hab => by omega) (List.pairwise_lt_range _), ?_⟩
        intro a ha b hb
        obtain ⟨i, hi, rfl⟩ := List.mem_map.mp ha
        obtain ⟨j, hj, rfl⟩ := List.mem_map.mp hb
        have hi' := List.mem_range.mp hi
        have hj' := List.mem_range.mp hj
        omega
  have hbound : ∀ p ∈ pagesToFetch totalItems fetchFull, 1 ≤ p ∧ p ≤ totalPagesOf totalItems := by
    intro p hp
    cases fetchFull with
    | true =>
      rw [pagesToFetch_full] at hp
      obtain ⟨i, hi, rfl⟩ := List.mem_map.mp hp
      have := List.mem_range.mp hi
      omega
    | false =>
      rcases le_or_lt (totalPagesOf totalItems) 100 with h100 | h100
      · rw [pagesToFetch_small _ h100] at hp
        obtain ⟨i, hi, rfl⟩ := List.mem_map.mp hp
        have := List.mem_range.mp hi
        omega
      · rw [pagesToFetch_sampled _ h100] at hp
        rcases List.mem_append.mp hp with hp | hp
        · obtain ⟨i, hi, rfl⟩ := List.mem_map.mp hp
          have := List.mem_range.mp hi
          omega
        · obtain ⟨j, hj, rfl⟩ := List.mem_map.mp hp
          have := List.mem_range.mp hj
          omega
  refine ⟨?_, ?_, hpw, hpw.imp (fun hab => Nat.ne_of_lt hab), hbound, by decide, by decide⟩
  · intro h
    cases fetchFull with
    | true => exact pagesToFetch_full totalItems
    | false =>
      rcases h with h | h
      · exact absurd h (by simp)
      · exact pagesToFetch_small totalItems h
  · rintro ⟨hf, h100⟩
    subst hf
    exact pagesToFetch_sampled totalItems h100

/-- Witness for **C3** at `totalItems = 25000` (250 pages), partial mode. -/
theorem claim3_witness :
    pagesToFetch 25000 false =
      ((List.range 30).map (fun i => i + 1)) ++
        ((List.range 70).map (fun j => totalPagesOf 25000 - 69 + j)) :=
  (claim3_sampling_plan 25000 false).2.1 ⟨rfl, by decide⟩

/-! ### The corrected daily history -/

theorem buildAnalytics_dailyHistory (events : List Nat) (t c d : Nat) :
    (buildAnalytics events t c d).dailyHistory =
      scaleHistory (dailyLoop events (historyDays c d) 0).1 (observedTotal events c d) t := rfl

theorem scaleHistory_pos (l : List DailyStar) (o t : Nat) (h1 : o < t) (h2 : 0 < o) :
    scaleHistory l o t = l.map (fun x =>
      ⟨x.date, x.daily, (jsRound ((x.cumulative : ℚ) * ((t : ℚ) / (o : ℚ)))).toNat⟩) := by
  unfold scaleHistory
  simp [h1, h2]

theorem scaleHistory_not_lt (l : List DailyStar) (o t : Nat) (h1 : ¬ o < t) :
    scaleHistory l o t = l := by
  unfold scaleHistory
  simp [h1]

/-- **C4.** For `createdAt ≤ today` the produced daily history is
calendar-dense: it has `(today - createdAt) + 1` entries, its dates are
exactly `createdAt, createdAt+1, ..., today` (strictly increasing by one
day, no duplicates or gaps), and every entry's `daily` count is the number
of observed events of that day — in particular a day with no observed
events carries an explicit zero entry. -/
theorem claim4_dense_history (events : List Nat) (totalStars createdAt today : Nat)
    (h : createdAt ≤ today) :
    (buildAnalytics events totalStars createdAt today).dailyHistory.length
        = today - createdAt + 1 ∧
      ((buildAnalytics events totalStars createdAt today).dailyHistory.map (fun x => x.date)
        = (List.range (today - createdAt + 1)).map (fun j => createdAt + j)) ∧
      ∀ x ∈ (buildAnalytics events totalStars createdAt today).dailyHistory,
        x.daily = rawDaily events x.date := by
  have hmap : (buildAnalytics events totalStars createdAt today).dailyHistory.map (fun x => x.date)
      = (List.range (today - createdAt + 1)).map (fun j => createdAt + j) := by
    rw [buildAnalytics_dailyHistory, scaleHistory_map_date, dailyLoop_map_date,
      historyDays_eq _ _ h]
  refine ⟨?_, hmap, ?_⟩
  · have hlen := congrArg List.length hmap
    simpa using hlen
  · intro x hx
    rw [buildAnalytics_dailyHistory] at hx
    obtain ⟨y, hy, hdate, hdaily⟩ := scaleHistory_mem _ _ _ _ hx
    rw [hdaily, dailyLoop_mem_daily events _ _ y hy, hdate]

/-- Witness for **C4** on the concrete window `createdAt = 0`, `today = 2`. -/
theorem claim4_witness :
    (buildAnalytics [34] 4 0 2).dailyHistory.length = 2 - 0 + 1 :=
  (claim4_dense_history [34] 4 0 2 (by decide)).1

/-- **C1 (counterexample).** With one day (`createdAt = today = 0`), two
observed events on that day and `reportedTotal = 1`, `observedTotal = 2 > 0`
but the final entry's `cumulative` is `2`, not the reported total `1`: the
correction only rescales when `observed < reported`, so the claimed final
value fails whenever `observedTotal > reportedTotal`. -/
theorem claim1_counterexample :
    0 < observedTotal [0, 1] 0 0 ∧
      ((buildAnalytics [0, 1] 1 0 0).dailyHistory.getLast?.map (fun x => x.cumulative))
          = some 2 ∧
      (2 : Nat) ≠ 1 := by decide

/-- **C1 (amended).** For every input the `cumulative` values of the
produced daily history are non-decreasing in date order, and whenever
`0 < observedTotal ≤ reportedTotal` the final entry's `cumulative` equals
`reportedTotal` (the original claim asserted the final value for every
`observedTotal > 0`; it fails when `observedTotal > reportedTotal`). -/
theorem claim1_amended (events : List Nat) (totalStars createdAt today : Nat) :
    List.Chain' (fun a b => a.cumulative ≤ b.cumulative)
        (buildAnalytics events totalStars createdAt today).dailyHistory ∧
      (0 < observedTotal events createdAt today →
        observedTotal events createdAt today ≤ totalStars →
        ((buildAnalytics events totalStars createdAt today).dailyHistory.getLast?.map
          (fun x => x.cumulative)) = some totalStars) := by
  rw [buildAnalytics_dailyHistory]
  have hchain := (dailyLoop_chain events (historyDays createdAt today) 0).1
  constructor
  · unfold scaleHistory
    split
    · rw [List.chain'_map]
      refine hchain.imp ?_
      intro a b hab
      apply Int.toNat_le_toNat
      apply jsRound_le_jsRound
      have hq : (0 : ℚ) ≤ (totalStars : ℚ) / (observedTotal events createdAt today : ℚ) :=
        div_nonneg (by positivity) (by positivity)
      exact mul_le_mul_of_nonneg_right (by exact_mod_cast hab) hq
    · exact hchain
  · intro ho hle
    have hne : historyDays createdAt today ≠ [] := by
      intro hnil
      have h0 : observedTotal events createdAt today = 0 := by
        unfold observedTotal
        rw [hnil]
        rfl
      omega
    have hlast : ((dailyLoop events (historyDays createdAt today) 0).1.getLast?.map
        (fun x => x.cumulative)) = some (observedTotal events createdAt today) :=
      dailyLoop_getLast events (historyDays createdAt today) 0 hne
    rcases Nat.lt_or_ge (observedTotal events createdAt today) totalStars with hlt | hge
    · rw [scaleHistory_pos _ _ _ hlt ho, List.getLast?_map, Option.map_map]
      obtain ⟨y, hy, hyc⟩ := Option.map_eq_some'.mp hlast
      rw [hy]
      have hne0 : ((observedTotal events createdAt today : ℚ)) ≠ 0 := by
        exact_mod_cast Nat.pos_iff_ne_zero.mp ho
      have hcancel : ((observedTotal events createdAt today : ℚ)) *
          ((totalStars : ℚ) / (observedTotal events createdAt today : ℚ)) = (totalStars : ℚ) := by
        field_simp
      show some ((jsRound ((y.cumulative : ℚ) *
          ((totalStars : ℚ) / (observedTotal events createdAt today : ℚ)))).toNat)
        = some totalStars
      rw [hyc, hcancel, jsRound_natCast, Int.toNat_natCast]
    · have heq : observedTotal events createdAt today = totalStars := le_antisymm hle hge
      rw [scaleHistory_not_lt _ _ _ (by omega), hlast, heq]

/-- Witness for **C1 (amended)**: one observed event of four reported
(`observedTotal = 1 ≤ 4`), final scaled `cumulative` is the reported 4. -/
theorem claim1_witness :
    0 < observedTotal [34] 0 2 ∧ observedTotal [34] 0 2 ≤ 4 ∧
      ((buildAnalytics [34] 4 0 2).dailyHistory.getLast?.map (fun x => x.cumulative))
        = some 4 :=
  ⟨by decide, by decide, (claim1_amended [34] 4 0 2).2 (by decide) (by decide)⟩

/-- **C7.** The partial-data example: window 2024-01-01 .. 2024-01-03
(days 0..2), the single event 2024-01-02T10:00Z (hour 34), reported total
4: `observedTotal = 1`, the scale factor is `4 / 1 = 4`, the 2024-01-02
entry's (and the final entry's) `cumulative` is 4, and
`dataCompleteness = 25`. -/
theorem buildAnalytics_dataCompleteness (events : List Nat) (t c d : Nat) :
    (buildAnalytics events t c d).dataCompleteness =
      if 0 < t then ((observedTotal events c d : ℚ) / (t : ℚ)) * 100 else 100 := rfl

theorem claim7_partial_data_example :
    observedTotal [34] 0 2 = 1 ∧
      ((4 : ℚ) / ((observedTotal [34] 0 2 : Nat) : ℚ)) = 4 ∧
      (buildAnalytics [34] 4 0 2).dailyHistory =
        [⟨0, 0, 0⟩, ⟨1, 1, 4⟩, ⟨2, 0, 4⟩] ∧
      (buildAnalytics [34] 4 0 2).dataCompleteness = 25 := by
  have ho : observedTotal [34] 0 2 = 1 := by decide
  have hraw : (dailyLoop [34] (historyDays 0 2) 0).1 =
      [⟨0, 0, 0⟩, ⟨1, 1, 1⟩, ⟨2, 0, 1⟩] := by decide
  refine ⟨ho, ?_, ?_, ?_⟩
  · rw [ho]
    norm_num
  · rw [buildAnalytics_dailyHistory, ho, scaleHistory_pos _ _ _ (by omega) (by omega), hraw]
    simp only [List.map_cons, List.map_nil, jsRound]
    norm_num
    rfl
  · rw [buildAnalytics_dataCompleteness, ho, if_pos (by omega : (0 : Nat) < 4)]
    norm_num

/-- **C10.** When the collection's creation day equals today,
`ageInDays = 0` and the guarded average (`ageInDays > 0 ? total/age :
total`) returns `totalItems` itself — the division is never taken with a
zero age, for any input. -/
theorem claim10_age_zero_avg (events : List Nat) (totalStars d : Nat) :
    (buildAnalytics events totalStars d d).ageInDays = 0 ∧
      (buildAnalytics events totalStars d d).avgStarsPerDay = (totalStars : ℚ) := by
  constructor
  · simp [buildAnalytics]
  · simp [buildAnalytics]

/-! ### Trend classification and order independence -/

/-- **C6.** The response's trend direction is computed by the stated rule
from its own corrected daily series: with `sum30` the sum of the last 30
`daily` counts and `sumPrev30` the sum of the preceding 30-day window,
the direction is `up` when `(sum30 - sumPrev30)/sumPrev30 > 1/10`, `down`
when `< -1/10`, else `stable`; for `sumPrev30 = 0` it is `up` exactly when
`sum30 > 10`; and the three concrete examples of the spec hold. -/
theorem claim6_trend_classification :
    (∀ (events : List Nat) (totalStars createdAt today : Nat),
        (buildAnalytics events totalStars createdAt today).trends.trend =
          trendOf
            (dailySum (lastN (buildAnalytics events totalStars createdAt today).dailyHistory 30))
            (dailySum (sliceWindow
              (buildAnalytics events totalStars createdAt today).dailyHistory))) ∧
      (∀ s p : Nat, 0 < p →
        trendOf s p =
          (if 1 / 10 < ((s : ℚ) - (p : ℚ)) / (p : ℚ) then Trend.up
           else if ((s : ℚ) - (p : ℚ)) / (p : ℚ) < -(1 / 10) then Trend.down
           else Trend.stable)) ∧
      (∀ s : Nat, trendOf s 0 = if 10 < s then Trend.up else Trend.stable) ∧
      trendOf 115 100 = Trend.up ∧ trendOf 85 100 = Trend.down ∧
      trendOf 95 100 = Trend.stable := by
  refine ⟨fun events t c d => rfl, fun s p hp => ?_, fun s => ?_, ?_, ?_, ?_⟩
  · simp only [trendOf, if_pos hp]
  · simp [trendOf]
  · simp only [trendOf]
    norm_num
  · simp only [trendOf]
    norm_num
  · simp only [trendOf]
    norm_num

/-- Witness for **C6** at `sum30 = 115`, `sumPrev30 = 100`. -/
theorem claim6_witness :
    trendOf 115 100 =
      (if 1 / 10 < ((115 : ℚ) - (100 : ℚ)) / (100 : ℚ) then Trend.up
       else if ((115 : ℚ) - (100 : ℚ)) / (100 : ℚ) < -(1 / 10) then Trend.down
       else Trend.stable) :=
  claim6_trend_classification.2.1 115 100 (by omega)

/-- **C8.** The analytics output is invariant under permutation of the
event list (bucketing counts events per day/per hour, so the whole
response is determined by the multiset of events). -/
theorem claim8_order_independence (e1 e2 : List Nat) (totalStars createdAt today : Nat)
    (h : e1.Perm e2) :
    buildAnalytics e1 totalStars createdAt today =
      buildAnalytics e2 totalStars createdAt today := by
  have hcount : ∀ p : Nat → Bool, e1.countP p = e2.countP p := fun p => h.countP_eq p
  have hraw : ∀ ds acc, dailyLoop e1 ds acc = dailyLoop e2 ds acc := by
    intro ds
    induction ds with
    | nil => intro acc; rfl
    | cons d ds ih =>
      intro acc
      rw [dailyLoop_cons, dailyLoop_cons]
      have hd : rawDaily e1 d = rawDaily e2 d := hcount _
      rw [hd, ih]
  have hh : hourlyActivityOf e1 today = hourlyActivityOf e2 today := by
    have hs : ∀ h : Int, hourlyStars e1 today h = hourlyStars e2 today h := by
      intro h
      unfold hourlyStars
      exact hcount _
    unfold hourlyActivityOf
    simp only [hs]
  simp only [buildAnalytics]
  rw [hraw (historyDays createdAt today) 0, hh]

/-- Witness for **C8** on a two-event swap. -/
theorem claim8_witness :
    buildAnalytics [49, 25] 2 0 2 = buildAnalytics [25, 49] 2 0 2 :=
  claim8_order_independence [49, 25] [25, 49] 2 0 2 (List.Perm.swap 25 49 [])

/-! ### The batched fetch loop and the cache -/

theorem runBatches_cons (fetch : Nat → FetchOutcome) (quota : Nat → Nat)
    (b : List Nat) (rest : List (List Nat)) (idx : Nat) :
    runBatches fetch quota (b :: rest) idx =
      if (b.map fetch).any (fun r => (outcomeEvents r).isEmpty) then
        if quota idx < 10 then
          ⟨((b.map fetch).map outcomeEvents).flatten, [true]⟩
        else
          ⟨((b.map fetch).map outcomeEvents).flatten ++
              (runBatches fetch quota rest (idx + 1)).events,
            true :: (runBatches fetch quota rest (idx + 1)).checked⟩
      else
        ⟨((b.map fetch).map outcomeEvents).flatten ++
            (runBatches fetch quota rest (idx + 1)).events,
          false :: (runBatches fetch quota rest (idx + 1)).checked⟩ := rfl

/-- **C2 (counterexample).** A batch whose single page fetch succeeds with
an empty event list (`ok []`, no rate-limited outcome anywhere) still
triggers the quota query: the loop's guard tests for an empty result
array, not for the rate-limited classification. -/
theorem claim2_counterexample :
    (runBatches (fun _ => FetchOutcome.ok []) (fun _ => 100) [[1]] 0).checked = [true] ∧
      ([1].map (fun _ => FetchOutcome.ok [])).count FetchOutcome.rateLimited = 0 := by
  decide

/-- **C2 (amended).** During one run, the remaining-quota endpoint is
queried after a batch exactly when some page fetch of that batch produced
an empty event array — which covers rate-limited fetches, fetches failing
with any other HTTP error, and successful fetches of an empty page.  The
`checked` trace (one flag per batch actually run) equals the emptiness
test mapped over those batches. -/
theorem claim2_amended (fetch : Nat → FetchOutcome) (quota : Nat → Nat)
    (chunks : List (List Nat)) (idx : Nat) :
    (runBatches fetch quota chunks idx).checked =
      ((chunks.take (runBatches fetch quota chunks idx).checked.length).map
        (fun b => (b.map fetch).any (fun r => (outcomeEvents r).isEmpty))) := by
  induction chunks generalizing idx with
  | nil => rfl
  | cons b rest ih =>
    rw [runBatches_cons]
    by_cases hb : (b.map fetch).any (fun r => (outcomeEvents r).isEmpty)
    · rw [if_pos hb]
      by_cases hq : quota idx < 10
      · rw [if_pos hq]
        simp [hb]
      · rw [if_neg hq]
        simp only [List.length_cons, List.take_succ_cons, List.map_cons, hb]
        rw [← ih (idx + 1)]
    · rw [if_neg hb]
      simp only [List.length_cons, List.take_succ_cons, List.map_cons]
      rw [Bool.not_eq_true] at hb
      rw [hb, ← ih (idx + 1)]

theorem runRequest_miss (fetch : Nat → FetchOutcome) (quota : Nat → Nat)
    (totalStars createdAt : Nat) (fetchFull : Bool)
    (cache : String → Option CacheEntry) (key : String) (now today : Nat)
    (hmiss : cacheGet cache key now = none) :
    runRequest fetch quota (some (totalStars, createdAt)) fetchFull cache key now today =
      Except.ok
        (buildAnalytics
            (runBatches fetch quota (chunked (pagesToFetch totalStars fetchFull)) 0).events
            totalStars createdAt today,
          cacheStore cache key now
            (runBatches fetch quota (chunked (pagesToFetch totalStars fetchFull)) 0).events) := by
  simp only [runRequest, hmiss]

/-- **C5.** When a batch contains a rate-limited fetch and the quota read
after it is below the safety floor 10, the loop stops: no batch of the
remaining plan is run and the trace carries only this batch's events.
On a cache miss the whole operation then returns a normal (`Except.ok`)
result built from exactly the accumulated events — never an error — and
whenever the observed total falls short of the reported total the
shortfall shows up as `dataCompleteness < 100`. -/
theorem claim5_ratelimit_stop :
    (∀ (fetch : Nat → FetchOutcome) (quota : Nat → Nat) (b : List Nat)
        (rest : List (List Nat)) (idx : Nat),
        (∃ p ∈ b, fetch p = FetchOutcome.rateLimited) → quota idx < 10 →
        runBatches fetch quota (b :: rest) idx =
          ⟨((b.map fetch).map outcomeEvents).flatten, [true]⟩) ∧
      (∀ (fetch : Nat → FetchOutcome) (quota : Nat → Nat) (totalStars createdAt : Nat)
        (fetchFull : Bool) (cache : String → Option CacheEntry) (key : String)
        (now today : Nat),
        cacheGet cache key now = none →
        runRequest fetch quota (some (totalStars, createdAt)) fetchFull cache key now today =
          Except.ok
            (buildAnalytics
                (runBatches fetch quota (chunked (pagesToFetch totalStars fetchFull)) 0).events
                totalStars createdAt today,
              cacheStore cache key now
                (runBatches fetch quota (chunked (pagesToFetch totalStars fetchFull)) 0).events)) ∧
      (∀ (events : List Nat) (totalStars createdAt today : Nat),
        observedTotal events createdAt today < totalStars →
        (buildAnalytics events totalStars createdAt today).dataCompleteness < 100) := by
  refine ⟨?_, ?_, ?_⟩
  · intro fetch quota b rest idx hrl hq
    obtain ⟨p, hp, hpeq⟩ := hrl
    have hb : ((b.map fetch).any (fun r => (outcomeEvents r).isEmpty)) = true := by
      refine List.any_eq_true.mpr ⟨fetch p, List.mem_map_of_mem fetch hp, ?_⟩
      rw [hpeq]
      rfl
    rw [runBatches_cons, if_pos hb, if_pos hq]
  · intro fetch quota totalStars createdAt fetchFull cache key now today hmiss
    exact runRequest_miss fetch quota totalStars createdAt fetchFull cache key now today hmiss
  · intro events totalStars createdAt today hlt
    have ht : 0 < totalStars := lt_of_le_of_lt (Nat.zero_le _) hlt
    rw [buildAnalytics_dataCompleteness, if_pos ht]
    have h1 : ((observedTotal events createdAt today : ℚ) / (totalStars : ℚ)) < 1 := by
      rw [div_lt_one (by exact_mod_cast ht)]
      exact_mod_cast hlt
    linarith

/-- Witness for **C5**: a rate-limited page in the first batch with zero
remaining quota stops the run before the second batch; a cache miss
returns `.ok`; an observed total of 0 against a reported total of 1 gives
completeness below 100. -/
theorem claim5_witness :
    runBatches (fun p => if p = 1 then FetchOutcome.rateLimited else FetchOutcome.ok [99])
        (fun _ => 0) [[1], [2]] 0 =
      ⟨(([1].map (fun p => if p = 1 then FetchOutcome.rateLimited
          else FetchOutcome.ok [99])).map outcomeEvents).flatten, [true]⟩ ∧
      runRequest (fun _ => FetchOutcome.ok []) (fun _ => 7) (some (0, 0)) false
          (fun _ => none) (String.mk ['k']) 0 0 =
        Except.ok
          (buildAnalytics
              ((runBatches (fun _ => FetchOutcome.ok []) (fun _ => 7)
                (chunked (pagesToFetch 0 false)) 0).events) 0 0 0,
            cacheStore (fun _ => none) (String.mk ['k']) 0
              ((runBatches (fun _ => FetchOutcome.ok []) (fun _ => 7)
                (chunked (pagesToFetch 0 false)) 0).events)) ∧
      (buildAnalytics [] 1 0 0).dataCompleteness < 100 :=
  ⟨claim5_ratelimit_stop.1 _ _ [1] [[2]] 0 ⟨1, by decide, rfl⟩ (by decide),
   claim5_ratelimit_stop.2.1 _ _ 0 0 false (fun _ => none) (String.mk ['k']) 0 0 rfl,
   claim5_ratelimit_stop.2.2 [] 1 0 0 (by decide)⟩

/-- **C9.** The cache is written only when the fetch round produced at
least one event: storing an empty event list leaves the cache map
untouched (no entry created, no timestamp refreshed), and a cache-miss
run whose fetch phase gathers no events returns with the cache exactly
as it was — so such a collection is fetched again on the next request. -/
theorem claim9_cache_skip_empty :
    (∀ (cache : String → Option CacheEntry) (key : String) (now : Nat),
        cacheStore cache key now [] = cache) ∧
      (∀ (fetch : Nat → FetchOutcome) (quota : Nat → Nat) (totalStars createdAt : Nat)
        (fetchFull : Bool) (cache : String → Option CacheEntry) (key : String)
        (now today : Nat),
        cacheGet cache key now = none →
        (runBatches fetch quota (chunked (pagesToFetch totalStars fetchFull)) 0).events = [] →
        runRequest fetch quota (some (totalStars, createdAt)) fetchFull cache key now today =
          Except.ok (buildAnalytics [] totalStars createdAt today, cache)) := by
  constructor
  · intro cache key now
    rfl
  · intro fetch quota totalStars createdAt fetchFull cache key now today hmiss hev
    rw [runRequest_miss fetch quota totalStars createdAt fetchFull cache key now today hmiss,
      hev]
    rfl

/-- Witness for **C9**: an empty plan (zero reported items) gathers no
events; the returned cache is the original (empty) map. -/
theorem claim9_witness :
    runRequest (fun _ => FetchOutcome.ok []) (fun _ => 100) (some (0, 0)) false
        (fun _ => none) (String.mk ['k']) 0 0 =
      Except.ok (buildAnalytics [] 0 0 0, fun _ => none) :=
  claim9_cache_skip_empty.2 _ _ 0 0 false (fun _ => none) (String.mk ['k']) 0 0 rfl rfl
